import Mathlib

/-!
Shallow embedding of the locker reservation backend
(`src/controllers/lockerController.ts`, `src/services/twilioService.ts`,
schema `src/config/database.sql`).

Conventions of the embedding:
* UUIDs are modelled as `Nat` identifiers.
* SQL `TIMESTAMP`s are rationals measured in hours, so JavaScript's
  `setHours(getHours() + h)` is `(· + h)` and
  `Math.ceil((end - start) / 3600000)` is `⌈end - start⌉`.
* SQL `DECIMAL` money amounts are rationals.
* A table is a list of rows; `SELECT ... WHERE` is `List.find?` /
  `List.filter` and `UPDATE ... WHERE` maps over the rows that match the
  `WHERE` key, exactly as SQL does.
* Request-body fields that the controllers test for JavaScript truthiness
  are `Option Nat` for identifier fields (`none` = absent/empty) and `ℚ`
  for numeric fields (`0` = falsy).
* Each controller is a function from a database state and its inputs to a
  result and a new database state.  A SQL transaction (`BEGIN`/`COMMIT`)
  is a single state transformation, so it is atomic by construction.
  Queries that the source runs *outside* any transaction are split into
  their own phase: `reserveLocker` and `verifyOTP` below are the diagonal
  of two-phase functions whose read phase and write phase can be given
  different states, which is what an interleaving with a second concurrent
  request produces.
-/

namespace LockFullstack

/-- `locker_status` enum of `database.sql`. -/
inductive LockerStatus
  | available
  | occupied
  | maintenance
deriving DecidableEq, Repr

/-- `reservation_status` enum of `database.sql`. -/
inductive ResStatus
  | active
  | completed
  | cancelled
deriving DecidableEq, Repr

/-- Row of `locker_sizes` (the fields the controllers read). -/
structure LockerSize where
  sizeId : Nat
  basePrice : ℚ
deriving DecidableEq, Repr

/-- Row of `lockers` (the fields the controllers read). -/
structure Locker where
  lockerId : Nat
  sizeId : Nat
  status : LockerStatus
deriving DecidableEq, Repr

/-- Row of `reservations`.  `extension_count INT DEFAULT 0`;
`extended_end_time`, `actual_end_time` and `extension_cost` are nullable. -/
structure Reservation where
  reservationId : Nat
  userId : Nat
  lockerId : Nat
  startTime : ℚ
  expectedEndTime : ℚ
  extendedEndTime : Option ℚ
  actualEndTime : Option ℚ
  status : ResStatus
  totalCost : ℚ
  accessCode : Nat
  extensionCount : Nat
  extensionCost : Option ℚ
deriving DecidableEq, Repr

/-- Row of `reservation_history`. -/
structure HistoryRecord where
  historyId : Nat
  reservationId : Nat
  startTime : ℚ
  endTime : ℚ
  totalHours : ℤ
  totalCost : ℚ
deriving DecidableEq, Repr

/-- Row of `verification_codes`. -/
structure VerificationCode where
  codeId : Nat
  phone : String
  code : String
  purpose : String
  expiresAt : ℚ
  isUsed : Bool
deriving DecidableEq, Repr

/-- The durable store: the tables the embedded controllers touch. -/
structure DbState where
  sizes : List LockerSize
  lockers : List Locker
  reservations : List Reservation
  history : List HistoryRecord
  codes : List VerificationCode
deriving DecidableEq, Repr

/-- JavaScript `parseInt` applied to the decimal rendering of a number
truncates toward zero: `parseInt(3.5) = 3`, `parseInt(-3.5) = -3`. -/
def truncToZero (q : ℚ) : ℤ := if 0 ≤ q then ⌊q⌋ else ⌈q⌉

/-- `UPDATE t SET ... WHERE k = i`: every row whose key matches is replaced
by the updated row, the others are kept. -/
def updateWhere {α : Type} (k : α → Nat) (i : Nat) (f : α → α) (l : List α) :
    List α :=
  l.map (fun x => if k x = i then f x else x)

/-- `UPDATE lockers SET status = $1 WHERE locker_id = $2`. -/
def setLockerStatus (ls : List Locker) (lockerId : Nat) (st : LockerStatus) :
    List Locker :=
  updateWhere Locker.lockerId lockerId (fun l => { l with status := st }) ls

/-- `UPDATE reservations SET ... WHERE reservation_id = $_`. -/
def updateReservationRow (rs : List Reservation) (rid : Nat)
    (f : Reservation → Reservation) : List Reservation :=
  updateWhere Reservation.reservationId rid f rs

/-- `UPDATE verification_codes SET is_used = true WHERE code_id = $1`. -/
def markCodeUsed (cs : List VerificationCode) (codeId : Nat) :
    List VerificationCode :=
  updateWhere VerificationCode.codeId codeId (fun c => { c with isUsed := true }) cs

/-! ## reserveLocker (`lockerController.ts`, lines 190-291) -/

/-- The availability query of `reserveLocker`:
`SELECT l.*, ls.base_price FROM lockers l JOIN locker_sizes ls ON
l.size_id = ls.size_id WHERE l.locker_id = $1 AND l.status = 'AVAILABLE'`.
Returns the locker row and its joined base price. -/
def reserveSelect (s : DbState) (lockerId : Nat) : Option (Locker × ℚ) :=
  match s.lockers.find?
      (fun l => decide (l.lockerId = lockerId ∧ l.status = LockerStatus.available)) with
  | none => none
  | some l =>
    (s.sizes.find? (fun sz => decide (sz.sizeId = l.sizeId))).map
      (fun sz => (l, sz.basePrice))

/-- The reservation row `reserveLocker` inserts: status ACTIVE,
`expected_end_time = now + durationHours`, the defaulted columns at their
schema defaults. -/
def mkReservation (resId userId lockerId : Nat) (now : ℚ) (durationHours : ℤ)
    (totalCost : ℚ) (accessCode : Nat) : Reservation :=
  { reservationId := resId
    userId := userId
    lockerId := lockerId
    startTime := now
    expectedEndTime := now + (durationHours : ℚ)
    extendedEndTime := none
    actualEndTime := none
    status := ResStatus.active
    totalCost := totalCost
    accessCode := accessCode
    extensionCount := 0
    extensionCost := none }

/-- The transaction body of `reserveLocker` (`BEGIN` ... `COMMIT`): set the
locker OCCUPIED — with no status condition in the `UPDATE` — and insert the
new reservation. -/
def reserveTxn (s : DbState) (newRes : Reservation) : DbState :=
  { s with
    lockers := setLockerStatus s.lockers newRes.lockerId LockerStatus.occupied
    reservations := s.reservations ++ [newRes] }

/-- Result of `reserveLocker`: the 400 "Locker ID and duration are
required" response, the 400 "Locker not available" response, or the 200
response carrying the inserted reservation row, the access code and
`expiresAt`. -/
inductive ReserveResult
  | invalidInput
  | notAvailable
  | ok (r : Reservation) (accessCode : Nat) (expiresAt : ℚ)
deriving DecidableEq, Repr

def ReserveResult.isOk : ReserveResult → Bool
  | .ok _ _ _ => true
  | _ => false

def ReserveResult.reservation? : ReserveResult → Option Reservation
  | .ok r _ _ => some r
  | _ => none

/-- `reserveLocker` with its two phases made explicit.  The availability
`SELECT` runs as a plain query *before* the transaction begins, so under
concurrency the state it reads (`sSel`) can differ from the state the
transaction is applied to (`sTxn`).  Sequential execution is the diagonal
`sSel = sTxn` (see `reserveLocker`). -/
def reserveLockerPhased (sSel sTxn : DbState) (lockerId? : Option Nat)
    (duration : ℚ) (userId : Nat) (now : ℚ) (resId accessCode : Nat) :
    ReserveResult × DbState :=
  match lockerId? with
  | none => (ReserveResult.invalidInput, sTxn)
  | some lockerId =>
    if duration = 0 then (ReserveResult.invalidInput, sTxn)
    else
      match reserveSelect sSel lockerId with
      | none => (ReserveResult.notAvailable, sTxn)
      | some (_, basePrice) =>
        let durationHours : ℤ := truncToZero duration
        let newRes := mkReservation resId userId lockerId now durationHours
          (basePrice * (durationHours : ℚ)) accessCode
        (ReserveResult.ok newRes accessCode (now + (durationHours : ℚ)),
         reserveTxn sTxn newRes)

/-- `reserveLocker(req, res)`: validation (`!lockerId || !duration`),
availability check, then the transaction.  `duration` is the request-body
value before `parseInt`; `now` the wall clock; `resId` and `accessCode`
the values produced by `generateUUID()` and the `Math.random()` access-code
generator. -/
def reserveLocker (s : DbState) (lockerId? : Option Nat) (duration : ℚ)
    (userId : Nat) (now : ℚ) (resId accessCode : Nat) :
    ReserveResult × DbState :=
  reserveLockerPhased s s lockerId? duration userId now resId accessCode

/-! ## extendReservation (`lockerController.ts`, lines 356-437) -/

/-- The lookup query of `extendReservation`:
`SELECT r.*, l.size_id, ls.base_price FROM reservations r JOIN lockers l
ON r.locker_id = l.locker_id JOIN locker_sizes ls ON l.size_id = ls.size_id
WHERE r.reservation_id = $1 AND r.user_id = $2 AND r.status = 'ACTIVE'`. -/
def extendSelect (s : DbState) (rid userId : Nat) : Option (Reservation × ℚ) :=
  match s.reservations.find?
      (fun r => decide (r.reservationId = rid ∧ r.userId = userId ∧
        r.status = ResStatus.active)) with
  | none => none
  | some r =>
    match s.lockers.find? (fun l => decide (l.lockerId = r.lockerId)) with
    | none => none
    | some l =>
      (s.sizes.find? (fun sz => decide (sz.sizeId = l.sizeId))).map
        (fun sz => (r, sz.basePrice))

/-- The `UPDATE reservations SET extended_end_time = $1, extension_count =
extension_count + 1, extension_cost = COALESCE(extension_cost, 0) + $2,
total_cost = $3 WHERE reservation_id = $4` applied to one row.  `newEnd`,
`addCost` and `newTotal` were computed from the fetched row; the count and
`extension_cost` increments are per-row SQL arithmetic. -/
def applyExtensionRow (row : Reservation) (newEnd newTotal addCost : ℚ) :
    Reservation :=
  { row with
    extendedEndTime := some newEnd
    extensionCount := row.extensionCount + 1
    extensionCost := some (row.extensionCost.getD 0 + addCost)
    totalCost := newTotal }

/-- Result of `extendReservation`: the 400 "required" response, the 404
"Active reservation not found" response, or the 200 response carrying the
updated row, `additionalCost` and `newEndTime`. -/
inductive ExtendResult
  | invalidInput
  | notFound
  | ok (r : Reservation) (additionalCost : ℚ) (newEndTime : ℚ)
deriving DecidableEq, Repr

def ExtendResult.isOk : ExtendResult → Bool
  | .ok _ _ _ => true
  | _ => false

def ExtendResult.addCost? : ExtendResult → Option ℚ
  | .ok _ c _ => some c
  | _ => none

def ExtendResult.newEnd? : ExtendResult → Option ℚ
  | .ok _ _ t => some t
  | _ => none

def ExtendResult.reservation? : ExtendResult → Option Reservation
  | .ok r _ _ => some r
  | _ => none

/-- `extendReservation(req, res)`: validation
(`!reservationId || !additionalHours`), the active-owned lookup, then the
update.  `new Date(extended_end_time || expected_end_time)` coalesces the
nullable column; `parseInt(additionalHours)` truncates toward zero. -/
def extendReservation (s : DbState) (reservationId? : Option Nat)
    (additionalHours : ℚ) (userId : Nat) : ExtendResult × DbState :=
  match reservationId? with
  | none => (ExtendResult.invalidInput, s)
  | some rid =>
    if additionalHours = 0 then (ExtendResult.invalidInput, s)
    else
      match extendSelect s rid userId with
      | none => (ExtendResult.notFound, s)
      | some (r, basePrice) =>
        let h : ℤ := truncToZero additionalHours
        let newEnd : ℚ := r.extendedEndTime.getD r.expectedEndTime + (h : ℚ)
        let addCost : ℚ := basePrice * (h : ℚ)
        let newTotal : ℚ := r.totalCost + addCost
        (ExtendResult.ok (applyExtensionRow r newEnd newTotal addCost) addCost newEnd,
         { s with reservations := (updateReservationRow s.reservations rid
            (fun row => applyExtensionRow row newEnd newTotal addCost)) })

/-! ## releaseLocker (`lockerController.ts`, lines 440-519) -/

/-- The lookup query of `releaseLocker`: `SELECT * FROM reservations WHERE
reservation_id = $1 AND user_id = $2 AND status = 'ACTIVE'`. -/
def releaseSelect (s : DbState) (rid userId : Nat) : Option Reservation :=
  s.reservations.find?
    (fun r => decide (r.reservationId = rid ∧ r.userId = userId ∧
      r.status = ResStatus.active))

/-- `UPDATE reservations SET status = 'COMPLETED', actual_end_time = NOW()
WHERE reservation_id = $2` applied to one row. -/
def completeReservationRow (row : Reservation) (now : ℚ) : Reservation :=
  { row with status := ResStatus.completed, actualEndTime := some now }

/-- Result of `releaseLocker`: the 404 "Active reservation not found"
response or the 200 success response. -/
inductive ReleaseResult
  | notFound
  | ok
deriving DecidableEq, Repr

/-- `releaseLocker(req, res)`: the active-owned lookup, then one
transaction that completes the reservation, frees the locker and appends
the history record with `total_hours = ceil(now - start_time)` and the
reservation's accrued `total_cost`. -/
def releaseLocker (s : DbState) (rid userId : Nat) (now : ℚ) (histId : Nat) :
    ReleaseResult × DbState :=
  match releaseSelect s rid userId with
  | none => (ReleaseResult.notFound, s)
  | some r =>
    (ReleaseResult.ok,
     { s with
       reservations := (updateReservationRow s.reservations rid
         (fun row => completeReservationRow row now))
       lockers := setLockerStatus s.lockers r.lockerId LockerStatus.available
       history := (s.history ++
         [{ historyId := histId
            reservationId := rid
            startTime := r.startTime
            endTime := now
            totalHours := ⌈now - r.startTime⌉
            totalCost := r.totalCost }]) })

/-! ## verifyOTP (`twilioService.ts`, lines 66-95) -/

/-- The `WHERE` clause of `verifyOTP`'s `SELECT`: `phone = $1 AND code = $2
AND purpose = $3 AND expires_at > NOW() AND is_used = false`. -/
def otpRowMatches (phone code purpose : String) (now : ℚ)
    (c : VerificationCode) : Bool :=
  decide (c.phone = phone ∧ c.code = code ∧ c.purpose = purpose ∧
    now < c.expiresAt ∧ c.isUsed = false)

/-- The `SELECT * FROM verification_codes WHERE ...` of `verifyOTP`;
`result.rows[0]` is the first matching row. -/
def verifySelect (s : DbState) (phone code purpose : String) (now : ℚ) :
    Option VerificationCode :=
  s.codes.find? (otpRowMatches phone code purpose now)

/-- `verifyOTP` with its two statements made explicit.  The `SELECT` and
the mark-used `UPDATE` are separate auto-commit queries — the source opens
no transaction — so under concurrency the state the `SELECT` reads
(`sSel`) can differ from the state the `UPDATE` is applied to (`sUpd`).
Sequential execution is the diagonal `sSel = sUpd` (see `verifyOTP`). -/
def verifyOTPPhased (sSel sUpd : DbState) (phone code purpose : String)
    (now : ℚ) : Bool × DbState :=
  match verifySelect sSel phone code purpose now with
  | none => (false, sUpd)
  | some c => (true, { sUpd with codes := markCodeUsed sUpd.codes c.codeId })

/-- `verifyOTP(phone, otp, purpose)`: return false when no matching
unexpired unused row exists, otherwise mark the found row used and return
true. -/
def verifyOTP (s : DbState) (phone code purpose : String) (now : ℚ) :
    Bool × DbState :=
  verifyOTPPhased s s phone code purpose now

/-- The ACTIVE reservations referencing a locker (the invariant reads: a
locker is OCCUPIED iff exactly one ACTIVE reservation references it). -/
def activeReservationsOn (s : DbState) (lockerId : Nat) : List Reservation :=
  s.reservations.filter
    (fun r => decide (r.lockerId = lockerId ∧ r.status = ResStatus.active))

/-! ## Concrete sample rows and states used as test inputs -/

/-- A locker size priced at 10 per hour. -/
def size1 : LockerSize := { sizeId := 1, basePrice := 10 }

/-- Locker 1 while occupied. -/
def locker1 : Locker := { lockerId := 1, sizeId := 1, status := LockerStatus.occupied }

/-- Locker 1 while available. -/
def availLocker1 : Locker :=
  { lockerId := 1, sizeId := 1, status := LockerStatus.available }

/-- A store with a single AVAILABLE locker of base price 10 and no
reservations. -/
def sampleState : DbState :=
  { sizes := [size1]
    lockers := [availLocker1]
    reservations := []
    history := []
    codes := [] }

/-- An ACTIVE reservation of user 7 on locker 1 whose `extended_end_time`
is set and earlier than its `expected_end_time` (reachable through an
extension with negative hours, which the controller accepts). -/
def res201 : Reservation :=
  { reservationId := 201
    userId := 7
    lockerId := 1
    startTime := 0
    expectedEndTime := 8
    extendedEndTime := some 5
    actualEndTime := none
    status := ResStatus.active
    totalCost := 30
    accessCode := 555
    extensionCount := 1
    extensionCost := some 0 }

def c4State : DbState :=
  { sizes := [size1]
    lockers := [locker1]
    reservations := [res201]
    history := []
    codes := [] }

/-- An ACTIVE reservation of user 7 on locker 1 with `extended_end_time`
set to hour 10. -/
def res301 : Reservation :=
  { reservationId := 301
    userId := 7
    lockerId := 1
    startTime := 0
    expectedEndTime := 8
    extendedEndTime := some 10
    actualEndTime := none
    status := ResStatus.active
    totalCost := 100
    accessCode := 555
    extensionCount := 1
    extensionCost := some 20 }

def c5State : DbState :=
  { sizes := [size1]
    lockers := [locker1]
    reservations := [res301]
    history := []
    codes := [] }

/-- A COMPLETED reservation owned by user 7: it exists and belongs to the
caller but is no longer ACTIVE. -/
def res401 : Reservation :=
  { reservationId := 401
    userId := 7
    lockerId := 1
    startTime := 0
    expectedEndTime := 3
    extendedEndTime := none
    actualEndTime := some 3
    status := ResStatus.completed
    totalCost := 30
    accessCode := 555
    extensionCount := 0
    extensionCost := none }

def c7State : DbState :=
  { sizes := [size1]
    lockers := [availLocker1]
    reservations := [res401]
    history := []
    codes := [] }

/-- An ACTIVE reservation of user 7 on locker 1, started at hour 0 for 3
hours at total cost 30. -/
def res501 : Reservation :=
  { reservationId := 501
    userId := 7
    lockerId := 1
    startTime := 0
    expectedEndTime := 3
    extendedEndTime := none
    actualEndTime := none
    status := ResStatus.active
    totalCost := 30
    accessCode := 555
    extensionCount := 0
    extensionCost := none }

def relState : DbState :=
  { sizes := [size1]
    lockers := [locker1]
    reservations := [res501]
    history := []
    codes := [] }

/-- One stored verification code for phone "p", unexpired until hour 10 and
unused. -/
def code1 : VerificationCode :=
  { codeId := 1
    phone := "p"
    code := "123456"
    purpose := "SIGNUP"
    expiresAt := 10
    isUsed := false }

def otpState : DbState :=
  { sizes := [], lockers := [], reservations := [], history := [], codes := [code1] }

end LockFullstack

namespace LockFullstack

/-! ## Lemmas about keyed row lookup and update -/

/-- Looking a key up after a keyed update that preserves keys returns the
updated row. -/
theorem find?_updateWhere {α : Type} (k : α → Nat) (i : Nat) (f : α → α)
    (hk : ∀ x, k (f x) = k x) (l : List α) :
    (updateWhere k i f l).find? (fun x => decide (k x = i)) =
      (l.find? (fun x => decide (k x = i))).map f := by
  induction l with
  | nil => rfl
  | cons a t ih =>
    by_cases h : k a = i
    · simp [updateWhere, List.find?, h, hk]
    · simp only [updateWhere, List.map_cons, List.find?, if_neg h] at *
      simp [h, ih]

/-- With pairwise-distinct keys (a primary-key column), looking up the key
of a member row returns exactly that row. -/
theorem find?_key_of_mem_nodup {α : Type} (k : α → Nat) (l : List α)
    (hnd : (l.map k).Nodup) (a : α) (ha : a ∈ l) :
    l.find? (fun x => decide (k x = k a)) = some a := by
  induction l with
  | nil => cases ha
  | cons b t ih =>
    have hnd' : k b ∉ t.map k ∧ (t.map k).Nodup := by
      simpa [List.nodup_cons] using hnd
    rcases List.mem_cons.mp ha with rfl | hat
    · simp [List.find?]
    · by_cases h : k b = k a
      · exact absurd (h ▸ List.mem_map_of_mem k hat) hnd'.1
      · simp only [List.find?, decide_eq_true_eq, if_neg h]
        simpa [h] using ih hnd'.2 hat

/-- After `markAvailable`, the availability-filtered lookup used by
`reserveLocker` finds the freed locker row. -/
theorem find?_avail_setLockerStatus (ls : List Locker) (i : Nat) (lk : Locker)
    (hfind : ls.find? (fun x => decide (x.lockerId = i)) = some lk) :
    (setLockerStatus ls i LockerStatus.available).find?
      (fun x => decide (x.lockerId = i ∧ x.status = LockerStatus.available)) =
      some { lk with status := LockerStatus.available } := by
  induction ls with
  | nil => simp [List.find?] at hfind
  | cons b t ih =>
    by_cases h : b.lockerId = i
    · have hb : b = lk := by simpa [List.find?, h] using hfind
      subst hb
      simp [setLockerStatus, updateWhere, List.find?, h]
    · have ht : t.find? (fun x => decide (x.lockerId = i)) = some lk := by
        simpa [List.find?, h] using hfind
      simpa [setLockerStatus, updateWhere, List.find?, h] using ih ht

/-- If `extendSelect` returns a row, then the active-owned reservation
lookup it starts from returned that row. -/
theorem extendSelect_inv (s : DbState) (rid userId : Nat) (r : Reservation) (b : ℚ)
    (hsel : extendSelect s rid userId = some (r, b)) :
    s.reservations.find?
      (fun x => decide (x.reservationId = rid ∧ x.userId = userId ∧
        x.status = ResStatus.active)) = some r := by
  rcases hf : s.reservations.find?
      (fun x => decide (x.reservationId = rid ∧ x.userId = userId ∧
        x.status = ResStatus.active)) with _ | r0
  · simp only [extendSelect, hf] at hsel
    cases hsel
  · simp only [extendSelect, hf] at hsel
    rcases hl : s.lockers.find? (fun l => decide (l.lockerId = r0.lockerId)) with _ | l0
    · simp only [hl] at hsel
      cases hsel
    · simp only [hl] at hsel
      rcases hz : s.sizes.find? (fun sz => decide (sz.sizeId = l0.sizeId)) with _ | z0
      · simp only [hz] at hsel
        cases hsel
      · simp only [hz] at hsel
        simp at hsel
        rw [hf, hsel.1]

/-! ## Claim theorems -/

/-- C1: the claim says `reserveLocker` re-checks the locker's AVAILABLE
status inside its transaction so that of two concurrent reserve calls on
the same AVAILABLE locker exactly one succeeds.  The source checks
availability in a plain query *before* `BEGIN`, and the transaction's
`UPDATE lockers SET status = 'OCCUPIED'` carries no status guard, so in the
interleaving where both availability checks run before either transaction
both calls succeed and two ACTIVE reservations end up referencing locker 1. -/
theorem reserve_toctou_both_succeed :
    ((reserveLockerPhased sampleState sampleState (some 1) 3 7 0 101 555).1.isOk = true) ∧
    ((reserveLockerPhased sampleState
        (reserveLockerPhased sampleState sampleState (some 1) 3 7 0 101 555).2
        (some 1) 3 8 0 102 556).1.isOk = true) ∧
    ((activeReservationsOn
        (reserveLockerPhased sampleState
          (reserveLockerPhased sampleState sampleState (some 1) 3 7 0 101 555).2
          (some 1) 3 8 0 102 556).2 1).length = 2) := by
  norm_num [reserveLockerPhased, reserveSelect, sampleState, size1, availLocker1,
    List.find?, mkReservation, truncToZero, ReserveResult.isOk, reserveTxn,
    setLockerStatus, updateWhere, activeReservationsOn, List.filter]

/-- C2: a successful release of an ACTIVE owned reservation, in one
transaction, marks the reservation COMPLETED with `actual_end_time = now`,
sets the referenced locker AVAILABLE, and appends exactly one history
record with `total_hours = ⌈now - start_time⌉` and the reservation's
accrued `total_cost`. -/
theorem release_completes_atomically
    (s : DbState) (rid userId : Nat) (now : ℚ) (histId : Nat)
    (r : Reservation) (lk : Locker)
    (hsel : releaseSelect s rid userId = some r)
    (hnd : (s.reservations.map Reservation.reservationId).Nodup)
    (hlk : s.lockers.find? (fun x => decide (x.lockerId = r.lockerId)) = some lk) :
    (releaseLocker s rid userId now histId).1 = ReleaseResult.ok ∧
    ((releaseLocker s rid userId now histId).2.reservations.find?
        (fun x => decide (x.reservationId = rid)))
      = some { r with status := ResStatus.completed, actualEndTime := some now } ∧
    ((releaseLocker s rid userId now histId).2.lockers.find?
        (fun x => decide (x.lockerId = r.lockerId)))
      = some { lk with status := LockerStatus.available } ∧
    (releaseLocker s rid userId now histId).2.history
      = s.history ++
          [{ historyId := histId
             reservationId := rid
             startTime := r.startTime
             endTime := now
             totalHours := ⌈now - r.startTime⌉
             totalCost := r.totalCost }] := by
  have hmem : r ∈ s.reservations := List.mem_of_find?_eq_some hsel
  have hprop := List.find?_some hsel
  have hid : r.reservationId = rid := by
    simpa using (of_decide_eq_true hprop).1
  have hbyid : s.reservations.find? (fun x => decide (x.reservationId = rid)) = some r := by
    have := find?_key_of_mem_nodup Reservation.reservationId s.reservations hnd r hmem
    rwa [hid] at this
  refine ⟨?_, ?_, ?_, ?_⟩
  · simp [releaseLocker, hsel]
  · have hupd := find?_updateWhere Reservation.reservationId rid
      (fun row => completeReservationRow row now) (fun x => rfl) s.reservations
    simp only [releaseLocker, hsel, updateReservationRow]
    rw [hupd, hbyid]
    simp [completeReservationRow]
  · have hupd := find?_updateWhere Locker.lockerId r.lockerId
      (fun x => { x with status := LockerStatus.available }) (fun x => rfl) s.lockers
    simp only [releaseLocker, hsel, setLockerStatus]
    rw [hupd, hlk]
    simp
  · simp [releaseLocker, hsel]

theorem release_completes_atomically_witness :
    (releaseLocker relState 501 7 (5/2) 901).1 = ReleaseResult.ok ∧
    ((releaseLocker relState 501 7 (5/2) 901).2.reservations.find?
        (fun x => decide (x.reservationId = 501)))
      = some { res501 with status := ResStatus.completed, actualEndTime := some (5/2) } ∧
    ((releaseLocker relState 501 7 (5/2) 901).2.lockers.find?
        (fun x => decide (x.lockerId = res501.lockerId)))
      = some { locker1 with status := LockerStatus.available } ∧
    (releaseLocker relState 501 7 (5/2) 901).2.history
      = relState.history ++
          [{ historyId := 901
             reservationId := 501
             startTime := res501.startTime
             endTime := 5/2
             totalHours := ⌈(5/2 : ℚ) - res501.startTime⌉
             totalCost := res501.totalCost }] :=
  release_completes_atomically relState 501 7 (5/2) 901 res501 locker1 rfl (by decide) rfl

end LockFullstack

namespace LockFullstack

/-- C3 counterexample: at duration 3.5 on a base price of 10, the recorded
initial cost is 30 (`parseInt` truncation), while `basePrice × ceil` would
be 40, so the claim's ceiling formula does not hold on the code. -/
theorem reserve_fractional_duration_truncated :
    (((reserveLocker sampleState (some 1) (7/2) 7 0 101 555).1.reservation?.map
        Reservation.totalCost) = some 30) ∧
    ((10 : ℚ) * ((⌈(7 : ℚ)/2⌉ : ℤ) : ℚ) = 40) ∧ ((30 : ℚ) ≠ 40) := by
  have hc : ⌈(7 : ℚ)/2⌉ = 4 := by norm_num [Int.ceil_eq_iff]
  norm_num [reserveLocker, reserveLockerPhased, reserveSelect, sampleState, size1,
    availLocker1, List.find?, mkReservation, truncToZero, ReserveResult.reservation?,
    hc]

/-- C3 amended: for every successful reserve, the initial `total_cost`
equals `basePrice × parseInt(durationHours)` — truncation toward zero,
which agrees with the claimed ceiling only on whole-hour durations. -/
theorem reserve_cost_base_times_trunc
    (s : DbState) (lockerId userId resId accessCode : Nat) (duration now : ℚ)
    (lk : Locker) (b : ℚ)
    (hdur : duration ≠ 0)
    (hsel : reserveSelect s lockerId = some (lk, b)) :
    ((reserveLocker s (some lockerId) duration userId now resId accessCode).1.reservation?.map
        Reservation.totalCost) = some (b * (truncToZero duration : ℚ)) := by
  simp [reserveLocker, reserveLockerPhased, hdur, hsel, mkReservation,
    ReserveResult.reservation?]

theorem reserve_cost_base_times_trunc_witness :
    ((reserveLocker sampleState (some 1) 3 7 0 101 555).1.reservation?.map
        Reservation.totalCost) = some (10 * (truncToZero 3 : ℚ)) :=
  reserve_cost_base_times_trunc sampleState 1 7 101 555 3 0 availLocker1 10
    (by norm_num) rfl

/-- C4 counterexample: on an ACTIVE owned reservation with
`extended_end_time = 5` and `expected_end_time = 8`, extending by 1.5 hours
at base price 10 succeeds and yields new end time 6 = coalesce + trunc and
additional cost 10 = 10 × trunc, not the claimed max(5,8) + 1.5 = 9.5 and
10 × ⌈1.5⌉ = 20. -/
theorem extend_fractional_not_max_not_ceil :
    ((extendReservation c4State (some 201) (3/2) 7).1.isOk = true) ∧
    ((extendReservation c4State (some 201) (3/2) 7).1.newEnd? = some 6) ∧
    ((extendReservation c4State (some 201) (3/2) 7).1.addCost? = some 10) ∧
    ((6 : ℚ) ≠ max (5 : ℚ) 8 + 3/2) ∧
    ((10 : ℚ) ≠ 10 * ((⌈(3 : ℚ)/2⌉ : ℤ) : ℚ)) := by
  have hc : ⌈(3 : ℚ)/2⌉ = 2 := by norm_num [Int.ceil_eq_iff]
  norm_num [extendReservation, extendSelect, c4State, size1, locker1, res201,
    List.find?, truncToZero, applyExtensionRow, ExtendResult.isOk,
    ExtendResult.newEnd?, ExtendResult.addCost?, hc]

/-- C4 amended: a successful extend sets the new end time to
`coalesce(extended_end_time, expected_end_time) + parseInt(additionalHours)`,
adds exactly `basePrice × parseInt(additionalHours)` to `total_cost`, and
increments `extension_count` by exactly 1 (truncation toward zero, which
agrees with the claimed max/ceiling form only when `extended_end_time ≥
expected_end_time` and the hours are whole). -/
theorem extend_updates_coalesce_trunc
    (s : DbState) (rid userId : Nat) (h : ℚ) (r : Reservation) (b : ℚ)
    (hh : h ≠ 0) (hsel : extendSelect s rid userId = some (r, b)) :
    ((extendReservation s (some rid) h userId).1.newEnd?
        = some (r.extendedEndTime.getD r.expectedEndTime + (truncToZero h : ℚ))) ∧
    ((extendReservation s (some rid) h userId).1.addCost? = some (b * (truncToZero h : ℚ))) ∧
    ((extendReservation s (some rid) h userId).1.reservation?.map Reservation.totalCost
        = some (r.totalCost + b * (truncToZero h : ℚ))) ∧
    ((extendReservation s (some rid) h userId).1.reservation?.map Reservation.extensionCount
        = some (r.extensionCount + 1)) := by
  simp [extendReservation, hh, hsel, applyExtensionRow, ExtendResult.newEnd?,
    ExtendResult.addCost?, ExtendResult.reservation?]

theorem extend_updates_coalesce_trunc_witness :
    ((extendReservation c4State (some 201) 2 7).1.newEnd?
        = some (res201.extendedEndTime.getD res201.expectedEndTime + (truncToZero 2 : ℚ))) ∧
    ((extendReservation c4State (some 201) 2 7).1.addCost? = some (10 * (truncToZero 2 : ℚ))) ∧
    ((extendReservation c4State (some 201) 2 7).1.reservation?.map Reservation.totalCost
        = some (res201.totalCost + 10 * (truncToZero 2 : ℚ))) ∧
    ((extendReservation c4State (some 201) 2 7).1.reservation?.map Reservation.extensionCount
        = some (res201.extensionCount + 1)) :=
  extend_updates_coalesce_trunc c4State 201 7 2 res201 10 (by norm_num) rfl

/-- C5: the claim says the end time never decreases across extend calls the
public interface accepts.  The validation `!additionalHours` only rejects 0
and missing values, so `additionalHours = -2` is accepted: on a reservation
with `extended_end_time = 10` the call succeeds and moves the end time
backward to 8. -/
theorem extend_negative_hours_moves_end_backward :
    ((extendReservation c5State (some 301) (-2) 7).1.isOk = true) ∧
    (((extendReservation c5State (some 301) (-2) 7).2.reservations.find?
        (fun r => decide (r.reservationId = 301))).map Reservation.extendedEndTime
      = some (some 8)) ∧ ((8 : ℚ) < 10) := by
  norm_num [extendReservation, extendSelect, c5State, size1, locker1, res301,
    List.find?, truncToZero, applyExtensionRow, ExtendResult.isOk,
    updateReservationRow, updateWhere,
    show ⌈(-2 : ℚ)⌉ = -2 by norm_num [Int.ceil_eq_iff]]

/-- C6: the claim says `verifyOTP` marks the code used in the same
transaction that reports success, so at most one of two concurrent calls
can succeed.  The source runs the `SELECT` and the mark-used `UPDATE` as
two separate auto-commit queries with no transaction, so in the
interleaving where both `SELECT`s run before either `UPDATE` both calls
return valid = true for the same single issued code; sequentially the
replay is still refused. -/
theorem verify_otp_concurrent_replay :
    ((verifyOTPPhased otpState otpState "p" "123456" "SIGNUP" 5).1 = true) ∧
    ((verifyOTPPhased otpState
        (verifyOTPPhased otpState otpState "p" "123456" "SIGNUP" 5).2
        "p" "123456" "SIGNUP" 5).1 = true) ∧
    ((verifyOTP (verifyOTP otpState "p" "123456" "SIGNUP" 5).2
        "p" "123456" "SIGNUP" 6).1 = false) ∧
    ((verifyOTP otpState "p" "123456" "SIGNUP" 11).1 = false) := by
  norm_num [verifyOTP, verifyOTPPhased, verifySelect, otpState, code1, List.find?,
    otpRowMatches, markCodeUsed, updateWhere]

/-- C7 counterexample: reservation 401 exists, is owned by user 7 and is
COMPLETED, yet extend returns the same `notFound` (404 "Active reservation
not found") produced for the absent reservation 999 — no distinct Conflict
failure exists in the code — while the state is left unchanged. -/
theorem extend_completed_same_notFound_as_absent :
    (res401 ∈ c7State.reservations ∧ res401.userId = 7 ∧
      res401.status = ResStatus.completed) ∧
    ((extendReservation c7State (some 401) 2 7).1 = ExtendResult.notFound) ∧
    ((extendReservation c7State (some 401) 2 7).2 = c7State) ∧
    ((extendReservation c7State (some 999) 2 7).1 = ExtendResult.notFound) := by
  refine ⟨⟨List.mem_cons_self _ _, rfl, rfl⟩, ?_, ?_, ?_⟩ <;>
    norm_num [extendReservation, extendSelect, c7State, size1, availLocker1,
      res401, List.find?,
      show decide (ResStatus.completed = ResStatus.active) = false from rfl]

/-- C7 amended: extend on a reservation that exists and is owned by userId
but is not ACTIVE fails with `notFound` — the same 404 "Active reservation
not found" failure returned for an absent reservation or an ownership
mismatch, not a distinct Conflict — and leaves the whole store unchanged. -/
theorem extend_non_active_notFound
    (s : DbState) (rid userId : Nat) (h : ℚ) (hh : h ≠ 0) (r : Reservation)
    (_hmem : r ∈ s.reservations) (_hid : r.reservationId = rid)
    (_howner : r.userId = userId) (_hstat : r.status ≠ ResStatus.active)
    (hnone : s.reservations.find? (fun x => decide (x.reservationId = rid ∧
      x.userId = userId ∧ x.status = ResStatus.active)) = none) :
    (extendReservation s (some rid) h userId) = (ExtendResult.notFound, s) := by
  simp only [extendReservation, extendSelect, if_neg hh]
  rw [hnone]

theorem extend_non_active_notFound_witness :
    (extendReservation c7State (some 401) 2 7) = (ExtendResult.notFound, c7State) :=
  extend_non_active_notFound c7State 401 7 2 (by norm_num) res401
    (List.mem_cons_self _ _) rfl rfl (by decide) rfl

/-- C8: the claim says every `durationHours ≤ 0` is rejected with
InvalidInput before any store access.  The validation `!duration` rejects
only 0: duration -3 passes it, reaches the store, succeeds with a negative
total cost of -30 and flips the locker to OCCUPIED. -/
theorem reserve_negative_duration_accepted :
    ((reserveLocker sampleState (some 1) 0 7 0 101 555).1 = ReserveResult.invalidInput) ∧
    ((reserveLocker sampleState (some 1) (-3) 7 0 101 555).1.isOk = true) ∧
    ((reserveLocker sampleState (some 1) (-3) 7 0 101 555).1.reservation?.map
        Reservation.totalCost = some (-30)) ∧
    ((reserveLocker sampleState (some 1) (-3) 7 0 101 555).2.lockers.map Locker.status
        = [LockerStatus.occupied]) := by
  norm_num [reserveLocker, reserveLockerPhased, reserveSelect, sampleState, size1,
    availLocker1, List.find?, mkReservation, truncToZero, ReserveResult.isOk,
    ReserveResult.reservation?, reserveTxn, setLockerStatus, updateWhere,
    show ⌈(-3 : ℚ)⌉ = -3 by norm_num [Int.ceil_eq_iff]]

/-- C9: after a successful release of an ACTIVE owned reservation, a
reserve on the same locker (with a non-falsy duration) succeeds again: the
release set the locker AVAILABLE, so the reserve's availability check finds
it. -/
theorem release_then_reserve_succeeds
    (s : DbState) (rid userId : Nat) (now : ℚ) (histId : Nat)
    (r : Reservation) (lk : Locker) (sz : LockerSize)
    (hsel : releaseSelect s rid userId = some r)
    (hlk : s.lockers.find? (fun x => decide (x.lockerId = r.lockerId)) = some lk)
    (hsz : s.sizes.find? (fun x => decide (x.sizeId = lk.sizeId)) = some sz)
    (userId2 : Nat) (duration now2 : ℚ) (hdur : duration ≠ 0) (resId2 ac2 : Nat) :
    ((reserveLocker (releaseLocker s rid userId now histId).2 (some r.lockerId)
        duration userId2 now2 resId2 ac2).1.isOk = true) := by
  have havail := find?_avail_setLockerStatus s.lockers r.lockerId lk hlk
  simp only [releaseLocker, hsel, reserveLocker, reserveLockerPhased, reserveSelect,
    if_neg hdur]
  rw [havail]
  simp [hsz, ReserveResult.isOk]

theorem release_then_reserve_succeeds_witness :
    ((reserveLocker (releaseLocker relState 501 7 (5/2) 901).2 (some res501.lockerId)
        2 9 3 902 777).1.isOk = true) :=
  release_then_reserve_succeeds relState 501 7 (5/2) 901 res501 locker1 size1
    rfl rfl rfl 9 2 3 (by norm_num) 902 777

/-- C10: a successful extend writes only `extended_end_time`,
`extension_count`, `extension_cost` and `total_cost` on the target
reservation row: the sizes, lockers (hence the referenced locker's
status), history and codes tables are untouched, the target row keeps its
`start_time`, `expected_end_time`, `status`, `access_code` and its user and
locker references, and every other reservation row is left in place. -/
theorem extend_frame_only_extension_fields
    (s : DbState) (rid userId : Nat) (h : ℚ) (r : Reservation) (b : ℚ)
    (hh : h ≠ 0) (hsel : extendSelect s rid userId = some (r, b))
    (hnd : (s.reservations.map Reservation.reservationId).Nodup) :
    (extendReservation s (some rid) h userId).2.sizes = s.sizes ∧
    (extendReservation s (some rid) h userId).2.lockers = s.lockers ∧
    (extendReservation s (some rid) h userId).2.history = s.history ∧
    (extendReservation s (some rid) h userId).2.codes = s.codes ∧
    (((extendReservation s (some rid) h userId).2.reservations.find?
        (fun x => decide (x.reservationId = rid))).map
      (fun x => (x.startTime, x.expectedEndTime, x.status, x.accessCode, x.userId, x.lockerId)))
      = some (r.startTime, r.expectedEndTime, r.status, r.accessCode, r.userId, r.lockerId) ∧
    (∀ row ∈ s.reservations, row.reservationId ≠ rid →
      row ∈ (extendReservation s (some rid) h userId).2.reservations) := by
  have hbase := extendSelect_inv s rid userId r b hsel
  have hmem : r ∈ s.reservations := List.mem_of_find?_eq_some hbase
  have hprop := List.find?_some hbase
  have hid : r.reservationId = rid := by
    simpa using (of_decide_eq_true hprop).1
  have hbyid : s.reservations.find? (fun x => decide (x.reservationId = rid)) = some r := by
    have := find?_key_of_mem_nodup Reservation.reservationId s.reservations hnd r hmem
    rwa [hid] at this
  refine ⟨?_, ?_, ?_, ?_, ?_, ?_⟩
  · simp [extendReservation, hh, hsel]
  · simp [extendReservation, hh, hsel]
  · simp [extendReservation, hh, hsel]
  · simp [extendReservation, hh, hsel]
  · have hupd := find?_updateWhere Reservation.reservationId rid
      (fun row => applyExtensionRow row
        (r.extendedEndTime.getD r.expectedEndTime + (truncToZero h : ℚ))
        (r.totalCost + b * (truncToZero h : ℚ)) (b * (truncToZero h : ℚ)))
      (fun x => rfl) s.reservations
    simp only [extendReservation, hsel, if_neg hh, updateReservationRow]
    rw [hupd, hbyid]
    simp [applyExtensionRow]
  · intro row hrow hne
    simp only [extendReservation, hsel, if_neg hh, updateReservationRow, updateWhere]
    exact List.mem_map.mpr ⟨row, hrow, by simp [hne]⟩

theorem extend_frame_only_extension_fields_witness :
    (extendReservation c5State (some 301) 1 7).2.sizes = c5State.sizes ∧
    (extendReservation c5State (some 301) 1 7).2.lockers = c5State.lockers ∧
    (extendReservation c5State (some 301) 1 7).2.history = c5State.history ∧
    (extendReservation c5State (some 301) 1 7).2.codes = c5State.codes ∧
    (((extendReservation c5State (some 301) 1 7).2.reservations.find?
        (fun x => decide (x.reservationId = 301))).map
      (fun x => (x.startTime, x.expectedEndTime, x.status, x.accessCode, x.userId, x.lockerId)))
      = some (res301.startTime, res301.expectedEndTime, res301.status, res301.accessCode,
          res301.userId, res301.lockerId) ∧
    (∀ row ∈ c5State.reservations, row.reservationId ≠ 301 →
      row ∈ (extendReservation c5State (some 301) 1 7).2.reservations) :=
  extend_frame_only_extension_fields c5State 301 7 1 res301 10 (by norm_num) rfl (by decide)

end LockFullstack
